import Mathlib

/-!
Verification of the AI-NGFW gateway (`src/gateway/index.js`) against its
specification.  The decision pipeline — context building, TLS/fingerprint
risk, rate limiting, rule-based risk, RBAC, ML risk client, aggregation and
audit logging — is shallowly embedded below.  JavaScript numbers are
modelled as exact rationals (`ℚ`), JS falsy-`||` defaulting is modelled
explicitly, and string predicates (`startsWith`, `includes`) are modelled
as character-list prefix/infix tests.  Wall-clock ISO timestamp strings,
which carry no decision-relevant information, are elided from the records.
The tamper-evident hash-chain audit log (the `/verify-chain` endpoint) is
not among the provided gateway sources and is modelled from the
specification, with SHA-256 idealized as a collision-free hash.
-/

/-- Character-list prefix test; `strStarts s p` models JS `s.startsWith(p)`. -/
def listPrefix : List Char → List Char → Bool
  | [], _ => true
  | _ :: _, [] => false
  | a :: as, b :: bs => a = b && listPrefix as bs

/-- Models JS `s.startsWith(p)`. -/
def strStarts (s p : String) : Bool := listPrefix p.data s.data

/-- Character-list infix test used to model JS `s.includes(p)`. -/
def listInfix (p : List Char) : List Char → Bool
  | [] => listPrefix p []
  | c :: rest => listPrefix p (c :: rest) || listInfix p rest

/-- Models JS `s.includes(p)`. -/
def strContains (s p : String) : Bool := listInfix p.data s.data

/-- Models JS `o || d` for a possibly-missing string: `undefined`, `null`
and the empty string are falsy and fall back to the default. -/
def jsOrStr (o : Option String) (d : String) : String :=
  match o with
  | none => d
  | some s => if s = "" then d else s

/-- Models JS `o || d` for a possibly-missing number: `undefined`, `null`
and `0` are falsy and fall back to the default. -/
def jsOrQ (o : Option ℚ) (d : ℚ) : ℚ :=
  match o with
  | none => d
  | some v => if v = 0 then d else v

/-- JA3-lite fingerprint attached to the request by the fingerprinting
middleware (`req.tlsFingerprint`).  Only the fields the decision pipeline
reads (`botScore`, `signals`) are modelled; the `ja3Lite` string and
`tlsInfo` record are only echoed to the external ML service and are elided. -/
structure TlsFingerprint where
  botScore : ℚ
  signals : List String
deriving DecidableEq

/-- Reply of the external ML scoring service (`res.data`); fields may be
absent from the JSON body. -/
structure MlResponse where
  ml_risk : Option ℚ
  ml_label : Option String
deriving DecidableEq

/-- Raw inbound request data as the gateway sees it: socket address,
method, express `path`/`url`, the headers the pipeline reads, the
fingerprint set by the upstream middleware, the negotiated cipher name
(`req.socket.getCipher()`, `none` when the accessor is absent) and the
outcome of the external ML call (`none` models any transport failure or
timeout, i.e. the `catch` branch of `scoreWithML`). -/
structure RawRequest where
  remoteAddress : String
  method : String
  path : String
  url : String
  userAgent : Option String
  xUserId : Option String
  xUserRole : Option String
  xForwardedProto : Option String
  tlsFingerprint : Option TlsFingerprint
  cipherName : Option String
  mlResponse : Option MlResponse
deriving DecidableEq

/-- Normalized request context (`buildContext`). -/
structure Ctx where
  ip : String
  method : String
  path : String
  userAgent : String
  userId : String
  role : String
deriving DecidableEq

/-- `buildContext(req)` from the gateway source: header fallbacks are
`'unknown'`, `'anonymous'` and `'guest'`. -/
def buildContext (req : RawRequest) : Ctx :=
  { ip := req.remoteAddress
    method := req.method
    path := req.path
    userAgent := jsOrStr req.userAgent "unknown"
    userId := jsOrStr req.xUserId "anonymous"
    role := jsOrStr req.xUserRole "guest" }

/-- Result of the rule risk engine (`checkRiskRule`). -/
structure RiskAssessment where
  risk : ℚ
  label : String
  reasons : List String
deriving DecidableEq

/-- The rule engine's label thresholds (gateway source line 48):
`risk >= 0.7 ? 'high_risk' : risk >= 0.35 ? 'medium_risk' : 'normal'`. -/
def ruleLabel (risk : ℚ) : String :=
  if risk ≥ 0.7 then "high_risk" else if risk ≥ 0.35 then "medium_risk" else "normal"

/-- Trigger of `checkRiskRule`: `!ctx.userId || ctx.userId === 'anonymous'`. -/
def trigNoUser (ctx : Ctx) : Bool := ctx.userId = "" || ctx.userId = "anonymous"

/-- Trigger of `checkRiskRule`: `ctx.path.startsWith('/admin')`. -/
def trigAdminPath (ctx : Ctx) : Bool := strStarts ctx.path "/admin"

/-- Trigger of `checkRiskRule`: admin path and `ctx.role === 'guest'`. -/
def trigGuestOnAdmin (ctx : Ctx) : Bool := strStarts ctx.path "/admin" && ctx.role = "guest"

/-- Trigger of `checkRiskRule`: `ctx.path.startsWith('/honeypot')`. -/
def trigHoneypot (ctx : Ctx) : Bool := strStarts ctx.path "/honeypot"

/-- The rule risk engine (`checkRiskRule`): additive scoring over the four
triggers, with the label derived from the accumulated score. -/
def checkRiskRule (ctx : Ctx) : RiskAssessment :=
  let st : ℚ × List String := (0, [])
  let st := if trigNoUser ctx then (st.1 + 0.15, st.2 ++ ["no_user_id"]) else st
  let st := if trigAdminPath ctx then (st.1 + 0.45, st.2 ++ ["admin_path"]) else st
  let st := if trigGuestOnAdmin ctx then (st.1 + 0.25, st.2 ++ ["guest_on_admin_path"]) else st
  let st := if trigHoneypot ctx then (st.1 + 0.75, st.2 ++ ["honeypot_path"]) else st
  { risk := st.1, label := ruleLabel st.1, reasons := st.2 }

/-- The ML risk client (`scoreWithML`).  The network call itself is outside
the embedding; its outcome is the `mlResponse` input.  `none` is the
`catch` branch (any transport failure or timeout): risk `0.0`, label
`'normal'`.  On success the JS falsy-defaults `res.data.ml_risk || 0.0`
and `res.data.ml_label || 'normal'` apply. -/
def scoreWithML (resp : Option MlResponse) : ℚ × String :=
  match resp with
  | none => (0, "normal")
  | some r => (jsOrQ r.ml_risk 0, jsOrStr r.ml_label "normal")

/-- One role's RBAC policy: allow-prefix and deny-prefix lists. -/
structure RbacPolicy where
  allow : List String
  deny : List String
deriving DecidableEq

/-- `RBAC.guest` from the gateway source. -/
def RBACguest : RbacPolicy := ⟨["/info"], ["/admin", "/admin/secret", "/admin/*"]⟩

/-- `RBAC.user` from the gateway source. -/
def RBACuser : RbacPolicy := ⟨["/info", "/profile"], ["/admin", "/admin/*"]⟩

/-- `RBAC.admin` from the gateway source. -/
def RBACadmin : RbacPolicy := ⟨["*"], []⟩

/-- `RBAC[role] || RBAC.guest`: the static table lookup with guest
fallback for unknown roles. -/
def rbacRules (role : String) : RbacPolicy :=
  if role = "guest" then RBACguest
  else if role = "user" then RBACuser
  else if role = "admin" then RBACadmin
  else RBACguest

/-- Models JS `d.replace('*', '')` on the table's prefix patterns. -/
def stripStar (s : String) : String := s.replace "*" ""

/-- The RBAC engine (`checkRBAC`): honeypot paths are denied first, then
the wildcard allow, then deny prefixes, then allow prefixes, default deny. -/
def checkRBAC (role pathReq : String) : Bool :=
  let rules := rbacRules role
  if strStarts pathReq "/honeypot" then false
  else if rules.allow.contains "*" then true
  else if rules.deny.any (fun d => strStarts pathReq (stripStar d)) then false
  else if rules.allow.any (fun a => strStarts pathReq (stripStar a)) then true
  else false

/-- The RBAC evaluation order as the specification words it: a static
table mapping role to its policy with unknown roles falling back to
`guest`; then (1) honeypot-prefix paths per the configured polarity —
configured to deny in this gateway — (2) wildcard allow, (3) any deny
prefix match denies, (4) any allow prefix match allows, (5) default deny. -/
def specPolicyTable : List (String × RbacPolicy) :=
  [("guest", RBACguest), ("user", RBACuser), ("admin", RBACadmin)]

/-- Spec-side table lookup with guest fallback. -/
def specLookup (role : String) : RbacPolicy :=
  ((specPolicyTable.find? (fun p => p.1 == role)).map (fun p => p.2)).getD RBACguest

/-- Spec-side RBAC evaluation following the claimed fixed order. -/
def rbacSpecOrder (role pathReq : String) : Bool :=
  let rules := specLookup role
  if strStarts pathReq "/honeypot" then false
  else if rules.allow.contains "*" then true
  else if rules.deny.any (fun d => strStarts pathReq (stripStar d)) then false
  else if rules.allow.any (fun a => strStarts pathReq (stripStar a)) then true
  else false

/-- `RATE_LIMIT_WINDOW = 60 * 1000` (milliseconds). -/
def RATE_LIMIT_WINDOW : ℤ := 60 * 1000

/-- `MAX_REQUESTS_PER_WINDOW = 20`. -/
def MAX_REQUESTS_PER_WINDOW : ℕ := 20

/-- Per-IP entry of `rateLimitMap`. -/
structure RateData where
  count : ℕ
  resetTime : ℤ
deriving DecidableEq

/-- The in-memory `rateLimitMap`, keyed by client IP. -/
def RateLimitMap : Type := String → Option RateData

/-- The empty rate-limit map (gateway start-up state). -/
def emptyRL : RateLimitMap := fun _ => none

/-- Result of `checkRateLimit`: `allowed`, signed `remaining` count and
seconds-to-reset. -/
structure RateLimitResult where
  allowed : Bool
  remaining : ℤ
  reset : ℕ
deriving DecidableEq

/-- Default result used only as the out-of-bounds placeholder of `List.getD`. -/
def rlDefault : RateLimitResult := ⟨true, 0, 0⟩

/-- `checkRateLimit(ip)` at time `now` (ms): fixed 60s window per IP,
reset when `now` passes the stored reset time, increment, compare with
the ceiling.  `remaining = 20 - count` may be negative;
`reset = Math.ceil((resetTime - now) / 1000)`. -/
def checkRateLimit (m : RateLimitMap) (ip : String) (now : ℤ) :
    RateLimitResult × RateLimitMap :=
  let ipData := (m ip).getD ⟨0, now + RATE_LIMIT_WINDOW⟩
  let ipData := if ipData.resetTime < now then
    ({ count := 0, resetTime := now + RATE_LIMIT_WINDOW } : RateData) else ipData
  let ipData := { ipData with count := ipData.count + 1 }
  let m' : RateLimitMap := fun k => if k = ip then some ipData else m k
  let exceeded := decide (ipData.count > MAX_REQUESTS_PER_WINDOW)
  (⟨!exceeded, (MAX_REQUESTS_PER_WINDOW : ℤ) - ipData.count,
    ((ipData.resetTime - now).toNat + 999) / 1000⟩, m')

/-- Runs a sequence of requests from one IP through `checkRateLimit`,
threading the map, and collects the per-request results. -/
def rlSeq (ip : String) (m : RateLimitMap) : List ℤ → List RateLimitResult
  | [] => []
  | t :: ts => (checkRateLimit m ip t).1 :: rlSeq ip (checkRateLimit m ip t).2 ts

/-- `req.url.replace(/^\/fw/, '')`: strips the `/fw` gateway prefix. -/
def stripFw (s : String) : String := if strStarts s "/fw" then s.drop 3 else s

/-- The TLS DPI block of `inspectAndForward`: JA3 bot score (JS truthiness:
present and nonzero), protocol-downgrade header check, weak-cipher
substrings, scripted user-agent for guests; sum capped at `1.0`. -/
def computeTls (req : RawRequest) (ctx : Ctx) : ℚ × List String :=
  let st : ℚ × List String := (0, [])
  let st := match req.tlsFingerprint with
    | some fp => if fp.botScore ≠ 0 then (st.1 + fp.botScore, st.2 ++ fp.signals) else st
    | none => st
  let st := if req.xForwardedProto ≠ some "https" then
    (st.1 + 0.20, st.2 ++ ["protocol_downgrade"]) else st
  let st := match req.cipherName with
    | some c =>
      if strContains c "RC4" || strContains c "CBC" || strContains c "3DES" then
        (st.1 + 0.30, st.2 ++ ["weak_cipher_suite"]) else st
    | none => st
  let ua := (req.userAgent).getD ""
  let st := if (strContains ua "curl" || strContains ua "wget" ||
      strContains ua "Python-urllib") && ctx.role = "guest" then
    (st.1 + 0.15, st.2 ++ ["suspicious_ua"]) else st
  (min st.1 1, st.2)

/-- The final-label thresholds of the aggregator (gateway source line 180):
`finalRisk >= 0.7 ? 'high_risk' : finalRisk >= 0.4 ? 'medium_risk' : 'normal'`. -/
def finalLabel (risk : ℚ) : String :=
  if risk ≥ 0.7 then "high_risk" else if risk ≥ 0.4 then "medium_risk" else "normal"

/-- One audit-log entry.  JS log objects are heterogeneous: the
rate-limited entry stores its reasons inside the decision object and has
no component risks, while the aggregated entry stores component risks and
entry-level reasons; absent fields are `none`/`[]`. -/
structure LogEntry where
  ctx : Ctx
  decisionAllow : Bool
  decisionRisk : ℚ
  decisionLabel : String
  decisionRbac : Option Bool
  decisionReasons : List String
  tlsRiskField : Option ℚ
  tlsReasons : List String
  targetPath : Option String
  ruleRisk : Option ℚ
  mlRisk : Option ℚ
  reasons : List String
deriving DecidableEq

/-- Gateway response: the 429 rate-limit body, the 403 block body, or the
decision to forward (carrying the `x-ngfw-*` headers; the relayed status
then comes from the backend). -/
inductive GwResponse where
  | tooManyRequests (remaining : ℤ) (reset : ℕ)
  | accessDenied (reason : String) (risk tlsRisk : ℚ) (reasons : List String)
  | forward (ruleRisk mlRisk tlsRisk finalRisk : ℚ) (label : String)
deriving DecidableEq

/-- HTTP status generated by the gateway itself (`none`: the forwarded
backend status is relayed). -/
def statusCode : GwResponse → Option ℕ
  | .tooManyRequests _ _ => some 429
  | .accessDenied _ _ _ _ => some 403
  | .forward _ _ _ _ _ => none

/-- The decision-aggregation stage of `inspectAndForward` (everything after
the rate limiter): TLS risk, rule risk, ML risk, three-way max, final
label, RBAC on the stripped path, audit entry, and the 403-or-forward
outcome. -/
def aggregateDecision (req : RawRequest) : GwResponse × LogEntry :=
  let ctx := buildContext req
  let forwardPath := stripFw req.url
  let tls := computeTls req ctx
  let ruleDecision := checkRiskRule ctx
  let ml := scoreWithML req.mlResponse
  let finalRisk := max (max ruleDecision.risk ml.1) tls.1
  let flabel := finalLabel finalRisk
  let rbacAllowed := checkRBAC ctx.role forwardPath
  let entry : LogEntry :=
    { ctx := ctx
      decisionAllow := rbacAllowed && decide (finalRisk < 0.95)
      decisionRisk := finalRisk
      decisionLabel := flabel
      decisionRbac := some rbacAllowed
      decisionReasons := []
      tlsRiskField := some tls.1
      tlsReasons := tls.2
      targetPath := some forwardPath
      ruleRisk := some ruleDecision.risk
      mlRisk := some ml.1
      reasons := ruleDecision.reasons ++ tls.2 }
  if !rbacAllowed || decide (finalRisk ≥ 0.95) then
    (.accessDenied (if !rbacAllowed then "RBAC violation" else "Critical risk")
      finalRisk tls.1 entry.reasons, entry)
  else
    (.forward ruleDecision.risk ml.1 tls.1 finalRisk flabel, entry)

/-- The `ratelimited` audit entry of the 429 short-circuit: blocked, risk
`1.0`, label `ratelimited`, and a reason string in which a negative
remaining count is clamped to `0` (only there — the response body carries
the raw value). -/
def rlEntryOf (ctx : Ctx) (rl : RateLimitResult) : LogEntry :=
  { ctx := ctx
    decisionAllow := false
    decisionRisk := 1
    decisionLabel := "ratelimited"
    decisionRbac := none
    decisionReasons := ["Rate limit exceeded: " ++
      toString (if rl.remaining < 0 then (0 : ℤ) else rl.remaining) ++
      " remaining, resets in " ++ toString rl.reset ++ "s"]
    tlsRiskField := none
    tlsReasons := []
    targetPath := none
    ruleRisk := none
    mlRisk := none
    reasons := [] }

/-- `inspectAndForward`: build the context, consult the rate limiter, and
either short-circuit with the 429 response and a `ratelimited` audit entry
(the decision aggregator is not consulted) or run the aggregation stage.
The source computes `checkRateLimit` once; the pure function is written
out twice here, which is observationally identical. -/
def inspectAndForward (m : RateLimitMap) (now : ℤ) (req : RawRequest) :
    GwResponse × LogEntry × RateLimitMap :=
  let ctx := buildContext req
  let rl := (checkRateLimit m ctx.ip now).1
  let m' := (checkRateLimit m ctx.ip now).2
  if !rl.allowed then
    (.tooManyRequests rl.remaining rl.reset, rlEntryOf ctx rl, m')
  else
    ((aggregateDecision req).1, (aggregateDecision req).2, m')

/-- Rule-risk component of a request, recomposed from the standalone engines. -/
def gwRuleRisk (req : RawRequest) : ℚ := (checkRiskRule (buildContext req)).risk

/-- ML-risk component of a request. -/
def gwMlRisk (req : RawRequest) : ℚ := (scoreWithML req.mlResponse).1

/-- Transport/fingerprint-risk component of a request. -/
def gwTlsRisk (req : RawRequest) : ℚ := (computeTls req (buildContext req)).1

/-- Three-way maximum of the component risks. -/
def gwFinalRisk (req : RawRequest) : ℚ :=
  max (max (gwRuleRisk req) (gwMlRisk req)) (gwTlsRisk req)

/-- RBAC verdict for a request (role from the context, `/fw`-stripped path). -/
def gwRbac (req : RawRequest) : Bool :=
  checkRBAC (buildContext req).role (stripFw req.url)

/-- Combined reason list: rule reasons followed by TLS reasons. -/
def gwReasons (req : RawRequest) : List String :=
  (checkRiskRule (buildContext req)).reasons ++ (computeTls req (buildContext req)).2

/-- Modelled from the spec: the aggregation the claim asserts, the four-way
maximum `max(ruleRisk, mlRisk, transportRisk, sessionBoost)` including the
Session Tracker's decaying risk-boost (spec §4.3, §4.8) — a component with
no counterpart in the gateway source. -/
def claimedFinalRisk (ruleRisk mlRisk transportRisk sessionBoost : ℚ) : ℚ :=
  max (max (max ruleRisk mlRisk) transportRisk) sessionBoost

/-- Modelled from the spec: one block of the tamper-evident audit chain
(spec §4.9).  The hash-chain gateway (`gateway.js` with `/verify-chain`)
is absent from the provided sources; per the spec each entry stores its
serialized content (modelled as a byte list), the previous entry's hash
and its own hash `H(content, prevHash)`, rooted at a fixed genesis hash. -/
structure ChainEntry where
  seq : ℕ
  payload : List ℕ
  prevHash : ℕ
  storedHash : ℕ
deriving DecidableEq

/-- Modelled from the spec: result of `/verify-chain`. -/
structure VerifyResult where
  valid : Bool
  brokenAt : Option ℕ
deriving DecidableEq

/-- Modelled from the spec: appending payloads builds the hash chain,
assigning sequence positions and linking each entry to its predecessor's
hash.  `H` stands for SHA-256 over (serialized content, previous hash). -/
def buildChain (H : List ℕ → ℕ → ℕ) : ℕ → ℕ → List (List ℕ) → List ChainEntry
  | _, _, [] => []
  | s, prev, p :: ps => ⟨s, p, prev, H p prev⟩ :: buildChain H (s + 1) (H p prev) ps

/-- Modelled from the spec: chain verification walks from the genesis hash,
recomputing each entry's hash from its content and the previous hash and
comparing with the stored link and hash; returns the first divergent
sequence position, if any. -/
def verifyFrom (H : List ℕ → ℕ → ℕ) : ℕ → ℕ → List ChainEntry → Option ℕ
  | _, _, [] => none
  | s, prev, e :: es =>
    if e.prevHash = prev ∧ e.storedHash = H e.payload prev then
      verifyFrom H (s + 1) (H e.payload prev) es
    else some s

/-- Modelled from the spec: the `/verify-chain` endpoint's report. -/
def verifyChain (H : List ℕ → ℕ → ℕ) (genesis : ℕ) (es : List ChainEntry) :
    VerifyResult :=
  match verifyFrom H 0 genesis es with
  | none => ⟨true, none⟩
  | some s => ⟨false, some s⟩

/-- Tampering: overwrite byte `j` of entry `i`'s payload with `b`. -/
def flipPayloadByte : List ChainEntry → ℕ → ℕ → ℕ → List ChainEntry
  | [], _, _, _ => []
  | e :: es, 0, j, b => { e with payload := e.payload.set j b } :: es
  | e :: es, i + 1, j, b => e :: flipPayloadByte es i j b

/-- Placeholder chain entry for out-of-bounds `List.getD`. -/
def chainDefault : ChainEntry := ⟨0, [], 0, 0⟩

/-- A concrete injective serialization of byte lists, used to witness the
collision-free-hash hypothesis. -/
def listEnc : List ℕ → ℕ
  | [] => 0
  | x :: xs => Nat.pair x (listEnc xs) + 1

/-- A concrete collision-free hash standing in for SHA-256 in witnesses. -/
def pairHash (p : List ℕ) (q : ℕ) : ℕ := Nat.pair (listEnc p) q

/-- Benign concrete request: known user, public path, healthy transport,
zero ML risk.  Used to exhibit that the aggregation has no fourth input. -/
def reqBenign : RawRequest :=
  { remoteAddress := "9.9.9.9"
    method := "GET"
    path := "/info"
    url := "/info"
    userAgent := some "Mozilla/5.0"
    xUserId := some "alice"
    xUserRole := some "user"
    xForwardedProto := some "https"
    tlsFingerprint := none
    cipherName := none
    mlResponse := some ⟨some 0, some "normal"⟩ }

/-- Concrete request used in the rate-limiter witnesses. -/
def reqW : RawRequest :=
  { remoteAddress := "5.5.5.5"
    method := "GET"
    path := "/info"
    url := "/info"
    userAgent := some "curl/8.0"
    xUserId := some "bob"
    xUserRole := some "guest"
    xForwardedProto := none
    tlsFingerprint := none
    cipherName := none
    mlResponse := none }

/-- A rate-limit map whose window for `5.5.5.5` is already exhausted. -/
def rlMapBad : RateLimitMap :=
  fun k => if k = "5.5.5.5" then some ⟨20, 100000⟩ else none

/-- A rate-limit map with an expired window for `"a"`. -/
def rlMapExpired : RateLimitMap :=
  fun k => if k = "a" then some ⟨20, 50⟩ else none

/-- Context of a `user`-role request on an admin path (monotonicity witness). -/
def ctxUserAdmin : Ctx :=
  ⟨"7.7.7.7", "GET", "/admin/panel", "Mozilla/5.0", "alice", "user"⟩

/-- The same context with the role switched to `guest`. -/
def ctxGuestAdmin : Ctx :=
  ⟨"7.7.7.7", "GET", "/admin/panel", "Mozilla/5.0", "alice", "guest"⟩

/-! ## Helper lemmas -/

theorem specLookup_eq (role : String) : specLookup role = rbacRules role := by
  by_cases h1 : role = "guest"
  · subst h1; rfl
  by_cases h2 : role = "user"
  · subst h2; rfl
  by_cases h3 : role = "admin"
  · subst h3; rfl
  have e1 : (("guest" : String) == role) = false := by
    simp [beq_iff_eq]; intro e; exact h1 e.symm
  have e2 : (("user" : String) == role) = false := by
    simp [beq_iff_eq]; intro e; exact h2 e.symm
  have e3 : (("admin" : String) == role) = false := by
    simp [beq_iff_eq]; intro e; exact h3 e.symm
  simp [specLookup, specPolicyTable, rbacRules, List.find?, e1, e2, e3, h1, h2, h3]

theorem checkRiskRule_risk_eq (ctx : Ctx) :
    (checkRiskRule ctx).risk =
      (if trigNoUser ctx then (0.15 : ℚ) else 0) +
      (if trigAdminPath ctx then (0.45 : ℚ) else 0) +
      (if trigGuestOnAdmin ctx then (0.25 : ℚ) else 0) +
      (if trigHoneypot ctx then (0.75 : ℚ) else 0) := by
  cases h1 : trigNoUser ctx <;> cases h2 : trigAdminPath ctx <;>
    cases h3 : trigGuestOnAdmin ctx <;> cases h4 : trigHoneypot ctx <;>
    simp [checkRiskRule, h1, h2, h3, h4]

theorem ite_risk_mono (a b : Bool) (v : ℚ) (hv : 0 ≤ v) (h : a = true → b = true) :
    (if a then v else 0) ≤ (if b then v else 0) := by
  cases a <;> cases b <;> simp_all

theorem aggregate_fst (req : RawRequest) :
    (aggregateDecision req).1 =
      if !gwRbac req || decide (gwFinalRisk req ≥ 0.95) then
        GwResponse.accessDenied (if !gwRbac req then "RBAC violation" else "Critical risk")
          (gwFinalRisk req) (gwTlsRisk req) (gwReasons req)
      else
        GwResponse.forward (gwRuleRisk req) (gwMlRisk req) (gwTlsRisk req)
          (gwFinalRisk req) (finalLabel (gwFinalRisk req)) := by
  simp only [aggregateDecision]
  rw [apply_ite Prod.fst]
  rfl

theorem aggregate_snd (req : RawRequest) :
    (aggregateDecision req).2 =
      { ctx := buildContext req
        decisionAllow := gwRbac req && decide (gwFinalRisk req < 0.95)
        decisionRisk := gwFinalRisk req
        decisionLabel := finalLabel (gwFinalRisk req)
        decisionRbac := some (gwRbac req)
        decisionReasons := []
        tlsRiskField := some (gwTlsRisk req)
        tlsReasons := (computeTls req (buildContext req)).2
        targetPath := some (stripFw req.url)
        ruleRisk := some (gwRuleRisk req)
        mlRisk := some (gwMlRisk req)
        reasons := gwReasons req } := by
  simp only [aggregateDecision]
  rw [apply_ite Prod.snd, ite_self]
  rfl

/-! ## Claims -/

/-- Claim C1 (amended): for every request that reaches the decision
aggregator, the final risk recorded in the decision equals the maximum of
the THREE component risks — rule risk, ML risk and transport/fingerprint
risk; the aggregation has no session risk-boost input. -/
theorem c1_final_risk_three_way_max (req : RawRequest) :
    (aggregateDecision req).2.decisionRisk =
      max (max (gwRuleRisk req) (gwMlRisk req)) (gwTlsRisk req)
    ∧ (aggregateDecision req).2.ruleRisk = some (gwRuleRisk req)
    ∧ (aggregateDecision req).2.mlRisk = some (gwMlRisk req)
    ∧ (aggregateDecision req).2.tlsRiskField = some (gwTlsRisk req) := by
  rw [aggregate_snd]
  exact ⟨rfl, rfl, rfl, rfl⟩

/-- Claim C1 (counterexample): the claimed four-way aggregation including
a session risk-boost is false on the code — at a benign concrete request
whose three component risks are all zero, a session boost of `0.15` (one
suspicious-cipher increment of the spec's Session Tracker) would make the
claimed maximum `0.15`, but the recorded final risk is `0`. -/
theorem c1_session_boost_counterexample :
    ¬ ((aggregateDecision reqBenign).2.decisionRisk =
        claimedFinalRisk (gwRuleRisk reqBenign) (gwMlRisk reqBenign)
          (gwTlsRisk reqBenign) (15 / 100)) := by
  have hrule : gwRuleRisk reqBenign = 0 := by
    have h1 : trigNoUser (buildContext reqBenign) = false := by decide
    have h2 : trigAdminPath (buildContext reqBenign) = false := by decide
    have h3 : trigGuestOnAdmin (buildContext reqBenign) = false := by decide
    have h4 : trigHoneypot (buildContext reqBenign) = false := by decide
    simp [gwRuleRisk, checkRiskRule, h1, h2, h3, h4]
  have hml : gwMlRisk reqBenign = 0 := by
    simp [gwMlRisk, reqBenign, scoreWithML, jsOrQ]
  have htls : gwTlsRisk reqBenign = 0 := by
    simp [gwTlsRisk, computeTls, reqBenign, strContains, listInfix, listPrefix]
  rw [aggregate_snd]
  simp only [claimedFinalRisk, hrule, hml, htls]
  norm_num [gwFinalRisk, hrule, hml, htls]

/-- Claim C2: the decision is allow exactly when RBAC allowed the
(role, path) pair and the final risk is below the single block threshold
`0.95`; otherwise the response is HTTP 403 whose reason is `RBAC
violation` when RBAC failed, else `Critical risk`, together with the
final risk and the full reason list. -/
theorem c2_decision_allow_iff (req : RawRequest) :
    ((aggregateDecision req).1 =
        GwResponse.forward (gwRuleRisk req) (gwMlRisk req) (gwTlsRisk req)
          (gwFinalRisk req) (finalLabel (gwFinalRisk req))
      ↔ (gwRbac req = true ∧ gwFinalRisk req < 0.95))
    ∧ ((aggregateDecision req).1 =
        GwResponse.accessDenied
          (if gwRbac req then "Critical risk" else "RBAC violation")
          (gwFinalRisk req) (gwTlsRisk req) (gwReasons req)
      ↔ ¬ (gwRbac req = true ∧ gwFinalRisk req < 0.95))
    ∧ (statusCode (aggregateDecision req).1 =
        if gwRbac req = true ∧ gwFinalRisk req < 0.95 then none else some 403)
    ∧ ((aggregateDecision req).2.decisionAllow =
        (gwRbac req && decide (gwFinalRisk req < 0.95))) := by
  rw [aggregate_fst, aggregate_snd]
  by_cases hb : gwRbac req = true
  · by_cases hr : gwFinalRisk req < 0.95
    · have hge : ¬ (gwFinalRisk req ≥ 0.95) := not_le.mpr hr
      simp [hb, hr, hge, statusCode]
    · have hge : gwFinalRisk req ≥ 0.95 := not_lt.mp hr
      simp [hb, hr, hge, statusCode]
  · have hb' : gwRbac req = false := by
      cases h : gwRbac req
      · rfl
      · exact absurd h hb
    simp [hb', statusCode]

/-- Claim C7 (counterexample): the rule-label and final-label threshold
functions disagree — at risk `0.35` the rule engine labels `medium_risk`
while the aggregator's final label is `normal`. -/
theorem c7_label_threshold_counterexample :
    ruleLabel (7 / 20 : ℚ) ≠ finalLabel (7 / 20 : ℚ) := by
  norm_num [ruleLabel, finalLabel]
  decide

/-- Claim C7 (amended): the final label applies thresholds `0.7`
(`high_risk`) and `0.4` (`medium_risk`) to the aggregated maximum risk,
while the rule label's medium threshold is `0.35`; the two label
functions agree exactly for risk values outside `[0.35, 0.4)`. -/
theorem c7_label_thresholds_amended :
    (∀ r : ℚ, ruleLabel r = finalLabel r ↔ (r < 0.35 ∨ 0.4 ≤ r))
    ∧ ∀ req : RawRequest,
        (aggregateDecision req).2.decisionLabel = finalLabel (gwFinalRisk req) := by
  constructor
  · intro r
    unfold ruleLabel finalLabel
    by_cases h7 : r ≥ 0.7
    · have h4 : (0.4 : ℚ) ≤ r := by linarith
      simp [h7, h4]
    · by_cases h4 : r ≥ 0.4
      · have h35 : r ≥ (0.35 : ℚ) := by linarith
        simp [h7, h4, h35]
      · by_cases h35 : r ≥ 0.35
        · have hlt : ¬ (r < 0.35) := not_lt.mpr h35
          have hlt4 : ¬ ((0.4 : ℚ) ≤ r) := h4
          simp [h7, h4, h35, hlt, hlt4]
        · have hlt : r < 0.35 := not_le.mp h35
          simp [h7, h4, h35, hlt]
  · intro req
    rw [aggregate_snd]

/-- Claim C8: rule risk is monotone — any context that triggers a
superset of another context's rule conditions (in particular, the same
request with the role switched to `guest` on an admin path, or with the
user switched to `anonymous`) receives a rule risk score at least as
large. -/
theorem c8_rule_risk_monotone (c c' : Ctx)
    (h1 : trigNoUser c = true → trigNoUser c' = true)
    (h2 : trigAdminPath c = true → trigAdminPath c' = true)
    (h3 : trigGuestOnAdmin c = true → trigGuestOnAdmin c' = true)
    (h4 : trigHoneypot c = true → trigHoneypot c' = true) :
    (checkRiskRule c).risk ≤ (checkRiskRule c').risk := by
  rw [checkRiskRule_risk_eq, checkRiskRule_risk_eq]
  have m1 := ite_risk_mono (trigNoUser c) (trigNoUser c') 0.15 (by norm_num) h1
  have m2 := ite_risk_mono (trigAdminPath c) (trigAdminPath c') 0.45 (by norm_num) h2
  have m3 := ite_risk_mono (trigGuestOnAdmin c) (trigGuestOnAdmin c') 0.25 (by norm_num) h3
  have m4 := ite_risk_mono (trigHoneypot c) (trigHoneypot c') 0.75 (by norm_num) h4
  linarith

/-- Claim C8 witness: switching the role from `user` to `guest` on an
admin path does not decrease the rule risk. -/
theorem c8_rule_risk_monotone_witness :
    (checkRiskRule ctxUserAdmin).risk ≤ (checkRiskRule ctxGuestAdmin).risk :=
  c8_rule_risk_monotone ctxUserAdmin ctxGuestAdmin
    (by decide) (by decide) (by decide) (by decide)

/-- Claim C6: `checkRBAC` evaluates in the fixed order the spec states —
honeypot polarity (deny) first, then the wildcard allow, then deny
prefixes, then allow prefixes, then default deny — and a role absent
from the policy table is evaluated under the `guest` policy. -/
theorem c6_rbac_order (role pathReq : String) :
    checkRBAC role pathReq = rbacSpecOrder role pathReq
    ∧ (role ∉ (["guest", "user", "admin"] : List String) →
        checkRBAC role pathReq = checkRBAC "guest" pathReq) := by
  constructor
  · unfold checkRBAC rbacSpecOrder
    rw [specLookup_eq]
  · intro h
    simp only [List.mem_cons, List.not_mem_nil, or_false, not_or] at h
    obtain ⟨h1, h2, h3⟩ := h
    unfold checkRBAC
    rw [show rbacRules role = RBACguest by simp [rbacRules, h1, h2, h3]]
    rfl

/-- Claim C6 witness: an unknown role is evaluated under the guest policy
and matches the spec-side evaluation order. -/
theorem c6_rbac_order_witness :
    checkRBAC "nobody" "/admin/x" = rbacSpecOrder "nobody" "/admin/x"
    ∧ checkRBAC "nobody" "/admin/x" = checkRBAC "guest" "/admin/x" :=
  ⟨(c6_rbac_order "nobody" "/admin/x").1,
   (c6_rbac_order "nobody" "/admin/x").2 (by decide)⟩

/-- Claim C9: honeypot denial overrides the admin wildcard — every path
starting with `/honeypot` is denied for every role, and for `admin`
(whose allow list is exactly `['*']`) the verdict is allow precisely on
non-honeypot paths, because the honeypot check precedes the wildcard
check. -/
theorem c9_honeypot_overrides_wildcard :
    (∀ role pathReq, strStarts pathReq "/honeypot" = true →
        checkRBAC role pathReq = false)
    ∧ RBACadmin.allow = ["*"]
    ∧ (∀ pathReq, checkRBAC "admin" pathReq = !strStarts pathReq "/honeypot") := by
  refine ⟨?_, rfl, ?_⟩
  · intro role p hp
    simp [checkRBAC, hp]
  · intro p
    cases hp : strStarts p "/honeypot" <;> simp [checkRBAC, hp, rbacRules, RBACadmin]

/-- Claim C9 witness: `/honeypot/creds` is denied even for `admin`. -/
theorem c9_honeypot_overrides_wildcard_witness :
    checkRBAC "admin" "/honeypot/creds" = false :=
  c9_honeypot_overrides_wildcard.1 "admin" "/honeypot/creds" (by decide)

theorem computeTls_ml_update (req : RawRequest) (ctx : Ctx) (z : Option MlResponse) :
    computeTls { req with mlResponse := z } ctx = computeTls req ctx := rfl

theorem inspect_ml_congr (m : RateLimitMap) (now : ℤ) (req : RawRequest)
    (x y : Option MlResponse) (h : scoreWithML x = scoreWithML y) :
    inspectAndForward m now { req with mlResponse := x } =
      inspectAndForward m now { req with mlResponse := y } := by
  simp only [inspectAndForward, aggregateDecision, buildContext, computeTls_ml_update]
  rw [h]

/-- Claim C5: when the external ML call fails for any transport reason or
times out, the ML risk client returns risk `0.0` and label `normal`, and
the whole pipeline behaves exactly as if a healthy ML service had
returned risk `0.0`/`normal` — the request completes through the pipeline
and the failure itself is never surfaced to the caller as a block. -/
theorem c5_ml_fail_open (m : RateLimitMap) (now : ℤ) (req : RawRequest) :
    scoreWithML none = (0, "normal")
    ∧ inspectAndForward m now { req with mlResponse := none } =
        inspectAndForward m now { req with mlResponse := some ⟨some 0, some "normal"⟩ } := by
  refine ⟨rfl, inspect_ml_congr m now req none (some ⟨some 0, some "normal"⟩) ?_⟩
  show (0, "normal") = ((jsOrQ (some 0) 0 : ℚ), jsOrStr (some "normal") "normal")
  norm_num [jsOrQ, jsOrStr]

theorem rl_first_res (m : RateLimitMap) (ip : String) (now : ℤ) (hm : m ip = none) :
    (checkRateLimit m ip now).1 = ⟨true, 19, 60⟩ := by
  have hlt : ¬ (now + RATE_LIMIT_WINDOW < now) := by
    unfold RATE_LIMIT_WINDOW; omega
  have hdiff : now + RATE_LIMIT_WINDOW - now = 60000 := by
    unfold RATE_LIMIT_WINDOW; ring
  simp [checkRateLimit, hm, hlt, hdiff, MAX_REQUESTS_PER_WINDOW]

theorem rl_first_map (m : RateLimitMap) (ip : String) (now : ℤ) (hm : m ip = none) :
    (checkRateLimit m ip now).2 ip = some ⟨1, now + RATE_LIMIT_WINDOW⟩ := by
  have hlt : ¬ (now + RATE_LIMIT_WINDOW < now) := by
    unfold RATE_LIMIT_WINDOW; omega
  simp [checkRateLimit, hm, hlt]

theorem rl_step_res (m : RateLimitMap) (ip : String) (now : ℤ) (c : ℕ) (R : ℤ)
    (hm : m ip = some ⟨c, R⟩) (hR : ¬ R < now) :
    (checkRateLimit m ip now).1 =
      ⟨decide (c + 1 ≤ 20), (MAX_REQUESTS_PER_WINDOW : ℤ) - ((c + 1 : ℕ) : ℤ),
        ((R - now).toNat + 999) / 1000⟩ := by
  simp [checkRateLimit, hm, hR, MAX_REQUESTS_PER_WINDOW]
  by_cases h : c ≤ 19
  · have h2 : ¬ (20 < c + 1) := by omega
    simp [h, h2]
  · have h2 : 20 < c + 1 := by omega
    simp [h, h2]

theorem rl_step_map (m : RateLimitMap) (ip : String) (now : ℤ) (c : ℕ) (R : ℤ)
    (hm : m ip = some ⟨c, R⟩) (hR : ¬ R < now) :
    (checkRateLimit m ip now).2 ip = some ⟨c + 1, R⟩ := by
  simp [checkRateLimit, hm, hR]

theorem rlSeq_within (ip : String) :
    ∀ (ts : List ℤ) (m : RateLimitMap) (c : ℕ) (R : ℤ),
      m ip = some ⟨c, R⟩ → (∀ u ∈ ts, ¬ R < u) →
      ∀ i, i < ts.length →
        ((rlSeq ip m ts).getD i rlDefault).allowed = decide (c + i + 1 ≤ 20)
        ∧ ((rlSeq ip m ts).getD i rlDefault).remaining
            = (MAX_REQUESTS_PER_WINDOW : ℤ) - ((c + i + 1 : ℕ) : ℤ) := by
  intro ts
  induction ts with
  | nil => intro m c R hm hw i hi; simp at hi
  | cons t ts ih =>
    intro m c R hm hw i hi
    have ht : ¬ R < t := hw t (List.mem_cons_self t ts)
    cases i with
    | zero =>
      simp only [rlSeq, List.getD_cons_zero]
      rw [rl_step_res m ip t c R hm ht]
      constructor <;> simp
    | succ j =>
      simp only [rlSeq, List.getD_cons_succ]
      have hm2 := rl_step_map m ip t c R hm ht
      have hw2 : ∀ u ∈ ts, ¬ R < u := fun u hu => hw u (List.mem_cons_of_mem t hu)
      have hj : j < ts.length := by simpa using hi
      have res := ih (checkRateLimit m ip t).2 (c + 1) R hm2 hw2 j hj
      have e : c + 1 + j + 1 = c + (j + 1) + 1 := by ring
      rw [e] at res
      exact res

theorem rlSeq_from_empty (ip : String) (t0 : ℤ) (ts : List ℤ) (m : RateLimitMap)
    (hm : m ip = none) (hw : ∀ u ∈ ts, u ≤ t0 + RATE_LIMIT_WINDOW) :
    ∀ i, i < (t0 :: ts).length →
      ((rlSeq ip m (t0 :: ts)).getD i rlDefault).allowed = decide (i + 1 ≤ 20)
      ∧ ((rlSeq ip m (t0 :: ts)).getD i rlDefault).remaining
          = (MAX_REQUESTS_PER_WINDOW : ℤ) - ((i + 1 : ℕ) : ℤ) := by
  intro i hi
  cases i with
  | zero =>
    simp only [rlSeq, List.getD_cons_zero]
    rw [rl_first_res m ip t0 hm]
    constructor <;> simp [MAX_REQUESTS_PER_WINDOW]
  | succ j =>
    simp only [rlSeq, List.getD_cons_succ]
    have hm2 := rl_first_map m ip t0 hm
    have hw2 : ∀ u ∈ ts, ¬ (t0 + RATE_LIMIT_WINDOW < u) :=
      fun u hu => not_lt.mpr (hw u hu)
    have hj : j < ts.length := by simpa using hi
    have res := rlSeq_within ip ts (checkRateLimit m ip t0).2 1 (t0 + RATE_LIMIT_WINDOW)
      hm2 hw2 j hj
    have e : 1 + j + 1 = j + 1 + 1 := by ring
    rw [e] at res
    exact res

theorem inspect_rl_denied (m : RateLimitMap) (now : ℤ) (req : RawRequest)
    (h : (checkRateLimit m (buildContext req).ip now).1.allowed = false) :
    inspectAndForward m now req =
      (.tooManyRequests (checkRateLimit m (buildContext req).ip now).1.remaining
          (checkRateLimit m (buildContext req).ip now).1.reset,
       rlEntryOf (buildContext req) (checkRateLimit m (buildContext req).ip now).1,
       (checkRateLimit m (buildContext req).ip now).2) := by
  simp [inspectAndForward, h]

/-- Claim C4: within one fixed 60-second window the first 20 requests from
an IP are allowed and the 21st is denied; the first request of a new
window is allowed; and a denial short-circuits the pipeline — status 429
with remaining/reset metadata, an audit entry blocked with label
`ratelimited` and risk `1.0`, and an outcome completely independent of
the ML scoring input, since the decision aggregator is never consulted. -/
theorem c4_rate_limit_window :
    (∀ (ip : String) (t0 : ℤ) (ts : List ℤ) (m : RateLimitMap),
        m ip = none → (∀ u ∈ ts, u ≤ t0 + RATE_LIMIT_WINDOW) →
        ∀ i, i < (t0 :: ts).length →
          ((rlSeq ip m (t0 :: ts)).getD i rlDefault).allowed = decide (i + 1 ≤ 20))
    ∧ (∀ (m : RateLimitMap) (ip : String) (now : ℤ) (d : RateData),
        m ip = some d → d.resetTime < now → (checkRateLimit m ip now).1.allowed = true)
    ∧ (∀ (m : RateLimitMap) (now : ℤ) (req : RawRequest),
        (checkRateLimit m (buildContext req).ip now).1.allowed = false →
          (inspectAndForward m now req).1 =
            GwResponse.tooManyRequests
              (checkRateLimit m (buildContext req).ip now).1.remaining
              (checkRateLimit m (buildContext req).ip now).1.reset
          ∧ statusCode (inspectAndForward m now req).1 = some 429
          ∧ (inspectAndForward m now req).2.1.decisionLabel = "ratelimited"
          ∧ (inspectAndForward m now req).2.1.decisionRisk = 1
          ∧ (inspectAndForward m now req).2.1.decisionAllow = false
          ∧ ∀ x y : Option MlResponse,
              inspectAndForward m now { req with mlResponse := x } =
                inspectAndForward m now { req with mlResponse := y }) := by
  refine ⟨?_, ?_, ?_⟩
  · intro ip t0 ts m hm hw i hi
    exact (rlSeq_from_empty ip t0 ts m hm hw i hi).1
  · intro m ip now d hm hR
    simp [checkRateLimit, hm, hR, MAX_REQUESTS_PER_WINDOW]
  · intro m now req h
    have key := inspect_rl_denied m now req h
    rw [key]
    refine ⟨rfl, rfl, rfl, rfl, rfl, ?_⟩
    intro x y
    have hx : (checkRateLimit m
        (buildContext { req with mlResponse := x }).ip now).1.allowed = false := h
    have hy : (checkRateLimit m
        (buildContext { req with mlResponse := y }).ip now).1.allowed = false := h
    rw [inspect_rl_denied m now { req with mlResponse := x } hx,
        inspect_rl_denied m now { req with mlResponse := y } hy]
    rfl

/-- Claim C4 witness: concrete 21-request window — request 21 denied,
request 1 allowed; an expired window admits the next request; a concrete
exhausted-window request yields the 429 outcome with the `ratelimited`
audit label. -/
theorem c4_rate_limit_window_witness :
    ((rlSeq "1.1.1.1" emptyRL ((0 : ℤ) :: List.replicate 20 0)).getD 20 rlDefault).allowed = false
    ∧ ((rlSeq "1.1.1.1" emptyRL ((0 : ℤ) :: List.replicate 20 0)).getD 0 rlDefault).allowed = true
    ∧ (checkRateLimit rlMapExpired "a" 100).1.allowed = true
    ∧ (inspectAndForward rlMapBad 0 reqW).1 =
        GwResponse.tooManyRequests
          (checkRateLimit rlMapBad (buildContext reqW).ip 0).1.remaining
          (checkRateLimit rlMapBad (buildContext reqW).ip 0).1.reset
    ∧ (inspectAndForward rlMapBad 0 reqW).2.1.decisionLabel = "ratelimited" := by
  refine ⟨?_, ?_, ?_, ?_, ?_⟩
  · exact (c4_rate_limit_window.1 "1.1.1.1" 0 (List.replicate 20 0) emptyRL rfl
      (by decide) 20 (by decide)).trans (by decide)
  · exact (c4_rate_limit_window.1 "1.1.1.1" 0 (List.replicate 20 0) emptyRL rfl
      (by decide) 0 (by decide)).trans (by decide)
  · exact c4_rate_limit_window.2.1 rlMapExpired "a" 100 ⟨20, 50⟩ rfl (by decide)
  · exact (c4_rate_limit_window.2.2 rlMapBad 0 reqW (by decide)).1
  · exact (c4_rate_limit_window.2.2 rlMapBad 0 reqW (by decide)).2.2.1

/-- Claim C10: when the ceiling is exceeded, the (20+k)-th request of a
window carries `remaining = -k` in the 429 response body, while the
audit-log reason text clamps the value to 0. -/
theorem c10_negative_remaining :
    (∀ (ip : String) (t0 : ℤ) (ts : List ℤ) (m : RateLimitMap) (i k : ℕ),
        m ip = none → (∀ u ∈ ts, u ≤ t0 + RATE_LIMIT_WINDOW) →
        i < (t0 :: ts).length → i + 1 = MAX_REQUESTS_PER_WINDOW + k → 1 ≤ k →
          ((rlSeq ip m (t0 :: ts)).getD i rlDefault).remaining = -(k : ℤ)
          ∧ ((rlSeq ip m (t0 :: ts)).getD i rlDefault).allowed = false)
    ∧ (∀ (m : RateLimitMap) (now : ℤ) (req : RawRequest),
        (checkRateLimit m (buildContext req).ip now).1.allowed = false →
        (checkRateLimit m (buildContext req).ip now).1.remaining < 0 →
          (inspectAndForward m now req).1 =
            GwResponse.tooManyRequests
              (checkRateLimit m (buildContext req).ip now).1.remaining
              (checkRateLimit m (buildContext req).ip now).1.reset
          ∧ (inspectAndForward m now req).2.1.decisionReasons =
              ["Rate limit exceeded: 0 remaining, resets in " ++
                toString (checkRateLimit m (buildContext req).ip now).1.reset ++ "s"]) := by
  constructor
  · intro ip t0 ts m i k hm hw hi hik hk
    have res := rlSeq_from_empty ip t0 ts m hm hw i hi
    have hmax : MAX_REQUESTS_PER_WINDOW = 20 := rfl
    constructor
    · rw [res.2, hik, hmax]
      push_cast
      ring
    · rw [res.1]
      simp only [decide_eq_false_iff_not]
      rw [hmax] at hik
      omega
  · intro m now req hallow hneg
    have key := inspect_rl_denied m now req hallow
    rw [key]
    refine ⟨rfl, ?_⟩
    simp only [rlEntryOf]
    rw [if_pos hneg]
    have hs : ("Rate limit exceeded: " ++ toString (0 : ℤ) ++ " remaining, resets in " : String)
        = "Rate limit exceeded: 0 remaining, resets in " := by decide
    rw [hs]

/-- Claim C10 witness: the 21st concrete request reports `remaining = -1`
in the body while the audit reason reads `0 remaining`. -/
theorem c10_negative_remaining_witness :
    ((rlSeq "1.1.1.1" emptyRL ((0 : ℤ) :: List.replicate 20 0)).getD 20 rlDefault).remaining = -1
    ∧ (inspectAndForward rlMapBad 0 reqW).2.1.decisionReasons =
        ["Rate limit exceeded: 0 remaining, resets in 100s"] := by
  constructor
  · exact ((c10_negative_remaining.1 "1.1.1.1" 0 (List.replicate 20 0) emptyRL 20 1 rfl
      (by decide) (by decide) (by decide) (by decide)).1).trans (by decide)
  · exact ((c10_negative_remaining.2 rlMapBad 0 reqW (by decide) (by decide)).2).trans (by decide)

theorem set_ne_of_ne (p : List ℕ) :
    ∀ (j b : ℕ), j < p.length → b ≠ p.getD j 0 → p.set j b ≠ p := by
  induction p with
  | nil => intro j b hj; simp at hj
  | cons x xs ih =>
    intro j b hj hb
    cases j with
    | zero =>
      simp only [List.getD_cons_zero] at hb
      simp only [List.set]
      intro h
      injection h with h1 h2
      exact hb h1
    | succ jj =>
      simp only [List.getD_cons_succ] at hb
      simp only [List.set]
      intro h
      have hj2 : jj < xs.length := by simpa using hj
      exact ih jj b hj2 hb (by injection h)

theorem verify_buildChain (H : List ℕ → ℕ → ℕ) :
    ∀ (ps : List (List ℕ)) (s prev : ℕ),
      verifyFrom H s prev (buildChain H s prev ps) = none := by
  intro ps
  induction ps with
  | nil => intro s prev; rfl
  | cons p ps ih =>
    intro s prev
    simp only [buildChain, verifyFrom, and_self, if_true]
    exact ih (s + 1) (H p prev)

theorem verify_flip (H : List ℕ → ℕ → ℕ)
    (hinj : ∀ p q r, H p r = H q r → p = q) :
    ∀ (ps : List (List ℕ)) (i : ℕ) (s prev j b : ℕ),
      i < ps.length → j < (ps.getD i []).length → b ≠ (ps.getD i []).getD j 0 →
      verifyFrom H s prev (flipPayloadByte (buildChain H s prev ps) i j b) = some (s + i) := by
  intro ps
  induction ps with
  | nil => intro i s prev j b hi; simp at hi
  | cons p ps ih =>
    intro i s prev j b hi hj hb
    cases i with
    | zero =>
      simp only [List.getD_cons_zero] at hj hb
      simp only [buildChain, flipPayloadByte, verifyFrom]
      have hne : p.set j b ≠ p := set_ne_of_ne p j b hj hb
      rw [if_neg]
      · simp
      · intro hcond
        exact hne ((hinj (p.set j b) p prev hcond.2.symm))
    | succ ii =>
      simp only [List.getD_cons_succ] at hj hb
      simp only [buildChain, flipPayloadByte, verifyFrom, and_self, if_true]
      have hi2 : ii < ps.length := by simpa using hi
      have res := ih ii (s + 1) (H p prev) j b hi2 hj hb
      rw [res]
      congr 1
      omega

theorem buildChain_seq (H : List ℕ → ℕ → ℕ) :
    ∀ (ps : List (List ℕ)) (s prev i : ℕ), i < ps.length →
      ((buildChain H s prev ps).getD i chainDefault).seq = s + i := by
  intro ps
  induction ps with
  | nil => intro s prev i hi; simp at hi
  | cons p ps ih =>
    intro s prev i hi
    cases i with
    | zero => rfl
    | succ ii =>
      simp only [buildChain, List.getD_cons_succ]
      have hi2 : ii < ps.length := by simpa using hi
      rw [ih (s + 1) (H p prev) ii hi2]
      omega

theorem listEnc_injective : ∀ p q : List ℕ, listEnc p = listEnc q → p = q := by
  intro p
  induction p with
  | nil =>
    intro q
    cases q with
    | nil => intro _; rfl
    | cons y ys => intro h; simp [listEnc] at h
  | cons x xs ih =>
    intro q
    cases q with
    | nil => intro h; simp [listEnc] at h
    | cons y ys =>
      intro h
      simp only [listEnc, Nat.add_right_cancel_iff] at h
      obtain ⟨h1, h2⟩ := Nat.pair_eq_pair.mp h
      rw [h1, ih ys h2]

theorem pairHash_injective (p q : List ℕ) (r : ℕ) (h : pairHash p r = pairHash q r) :
    p = q :=
  listEnc_injective p q (Nat.pair_eq_pair.mp h).1

/-- Claim C3 (spec-modelled): for any collision-free content hash, an
untouched chain verifies as `valid := true`, while overwriting any single
byte of any one entry's payload with a different value makes verification
report `valid := false` with `brokenAt` equal to that entry's sequence
position — verification recomputing each entry's hash from its content
and the previous entry's hash starting from the fixed genesis hash. -/
theorem c3_chain_integrity (H : List ℕ → ℕ → ℕ) (genesis : ℕ)
    (payloads : List (List ℕ)) (i j b : ℕ)
    (hinj : ∀ p q r, H p r = H q r → p = q)
    (hi : i < payloads.length)
    (hj : j < (payloads.getD i []).length)
    (hb : b ≠ (payloads.getD i []).getD j 0) :
    verifyChain H genesis (buildChain H 0 genesis payloads) = ⟨true, none⟩
    ∧ verifyChain H genesis (flipPayloadByte (buildChain H 0 genesis payloads) i j b)
        = ⟨false, some i⟩
    ∧ ((buildChain H 0 genesis payloads).getD i chainDefault).seq = i := by
  refine ⟨?_, ?_, ?_⟩
  · unfold verifyChain
    rw [verify_buildChain H payloads 0 genesis]
  · unfold verifyChain
    rw [verify_flip H hinj payloads i 0 genesis j b hi hj hb]
    simp
  · rw [buildChain_seq H payloads 0 genesis i hi]
    omega

/-- Claim C3 witness: a concrete two-entry chain under a concrete
collision-free hash — the untouched chain verifies, and flipping byte 0
of entry 1's payload breaks verification exactly at sequence position 1. -/
theorem c3_chain_integrity_witness :
    verifyChain pairHash 7 (buildChain pairHash 0 7 [[1, 2], [3, 4]]) = ⟨true, none⟩
    ∧ verifyChain pairHash 7
        (flipPayloadByte (buildChain pairHash 0 7 [[1, 2], [3, 4]]) 1 0 9) = ⟨false, some 1⟩
    ∧ ((buildChain pairHash 0 7 [[1, 2], [3, 4]]).getD 1 chainDefault).seq = 1 :=
  c3_chain_integrity pairHash 7 [[1, 2], [3, 4]] 1 0 9
    (fun p q r h => pairHash_injective p q r h) (by decide) (by decide) (by decide)
